import Mathlib

/-!
Verification development for the YouTube-PRP-Notion pipeline.

Shallow embedding, translated from the repository's TypeScript sources and
SQL migrations:
- `src/lib/youtube-client.ts` (video-id extraction, duration rendering,
  transcript fallback, retry loop)
- `src/lib/gemini-client.ts` (extraction client: retry loop, response
  decoding, task batch order assignment)
- `src/src/tools/prp-tools.ts` (tool handlers: extractTasks,
  updateTaskStatus, registration gating)
- the notion/youtube tool handler module (syncToNotion branch logic,
  parseYoutubePRP auto-sync phase)
- migrations 001 and 002 (table check constraints)
-/

/- ### Duration rendering — src/lib/youtube-client.ts, parseDuration (lines 45-58) -/

/-- The `parts` array built at youtube-client.ts lines 53-56: a component is
pushed only when its value is strictly positive. -/
def durationParts (hours minutes seconds : Nat) : List String :=
  (if hours > 0 then [toString hours ++ "h"] else []) ++
  (if minutes > 0 then [toString minutes ++ "m"] else []) ++
  (if seconds > 0 then [toString seconds ++ "s"] else [])

/-- youtube-client.ts line 58: `parts.join(' ') || '0s'` — the empty join is
falsy in JS, so an all-zero duration renders as "0s". -/
def renderDuration (hours minutes seconds : Nat) : String :=
  let joined := String.intercalate " " (durationParts hours minutes seconds)
  if joined = "" then "0s" else joined

/-- Leading decimal digits of a character list, with the remainder. -/
def takeDigits : List Char → (List Char × List Char)
  | [] => ([], [])
  | c :: cs =>
    if c.isDigit then
      let (ds, rest) := takeDigits cs
      (c :: ds, rest)
    else ([], c :: cs)

/-- Numeric value of a digit list (JS `parseInt` on the captured group). -/
def digitsToNat (ds : List Char) : Nat :=
  ds.foldl (fun acc c => acc * 10 + (c.toNat - 48)) 0

/-- One optional regex group `(?:(\d+)X)?`: it participates exactly when a
non-empty maximal digit run is immediately followed by the marker character
(the markers H, M, S are not digits, so no shorter run can succeed). -/
def groupNum (cs : List Char) (marker : Char) : Option Nat × List Char :=
  match takeDigits cs with
  | ([], _) => (none, cs)
  | (ds, rest) =>
    match rest with
    | [] => (none, cs)
    | c :: rest2 => if c = marker then (some (digitsToNat ds), rest2) else (none, cs)

/-- Unanchored search for the literal "PT" (the only mandatory part of the
regex at youtube-client.ts line 46); returns the remainder after the first
occurrence. -/
def findPT : List Char → Option (List Char)
  | [] => none
  | 'P' :: 'T' :: rest => some rest
  | _ :: rest => findPT rest

/-- src/lib/youtube-client.ts lines 45-58: match
`PT(?:(\d+)H)?(?:(\d+)M)?(?:(\d+)S)?` anywhere in the input; on no match the
input is returned unchanged; missing groups default to 0. -/
def parseDuration (duration : String) : String :=
  match findPT duration.toList with
  | none => duration
  | some rest =>
    let (h, r1) := groupNum rest 'H'
    let (m, r2) := groupNum r1 'M'
    let (s, _) := groupNum r2 'S'
    renderDuration (h.getD 0) (m.getD 0) (s.getD 0)

/-- Written from the spec sentence "a component with value 0 is omitted from
the output": keep exactly the nonzero components, in hour/minute/second
order. Compared against the source-translated `durationParts`. -/
def specNonzeroComponents (hours minutes seconds : Nat) : List String :=
  ([(hours, "h"), (minutes, "m"), (seconds, "s")].filter (fun p => p.1 ≠ 0)).map
    (fun p => toString p.1 ++ p.2)

/- ### Video-id extraction — src/lib/youtube-client.ts, extractVideoId (lines 28-42) -/

/-- The character class `[a-zA-Z0-9_-]` of the video-id capture group. -/
def videoIdChar (c : Char) : Bool :=
  c.isAlpha || c.isDigit || c = '_' || c = '-'

/-- Match a literal prefix against the input, returning the remainder. -/
def matchLit : List Char → List Char → Option (List Char)
  | [], cs => some cs
  | _ :: _, [] => none
  | l :: ls, c :: cs => if c = l then matchLit ls cs else none

/-- The `{11}` quantifier: exactly 11 id characters (anything after the 11th
is outside the match and ignored). -/
def grab11 (cs : List Char) : Option (List Char) :=
  let ds := cs.take 11
  if ds.length = 11 && ds.all videoIdChar then some ds else none

/-- Try the alternation branches in order at one position. -/
def tryBranchesAt (branches : List (List Char)) (cs : List Char) : Option (List Char) :=
  branches.findSome? (fun b => (matchLit b cs).bind grab11)

/-- Unanchored regex scan: leftmost position wins, alternation branches are
tried in order at each position. -/
def scanPattern (branches : List (List Char)) : List Char → Option (List Char)
  | [] => none
  | c :: rest =>
    match tryBranchesAt branches (c :: rest) with
    | some found => some found
    | none => scanPattern branches rest

/-- The first pattern's alternation at youtube-client.ts line 30. -/
def pattern1Branches : List (List Char) :=
  ["youtube.com/watch?v=".toList, "youtu.be/".toList, "youtube.com/embed/".toList]

/-- The second pattern at youtube-client.ts line 31. -/
def pattern2Branches : List (List Char) :=
  ["youtube.com/v/".toList]

/-- src/lib/youtube-client.ts lines 28-42: patterns are tried in order with
`url.match` (unanchored substring search); a match returns capture group 1
(the 11 id characters); no match throws "Invalid YouTube URL format",
modelled as `none`. -/
def extractVideoId (url : String) : Option String :=
  match scanPattern pattern1Branches url.toList with
  | some found => some (String.mk found)
  | none =>
    match scanPattern pattern2Branches url.toList with
    | some found => some (String.mk found)
    | none => none

/- ### Task type constraints — gemini-client.ts line 36, migrations 001 and 002 -/

/-- The zod enum of task types accepted by the extraction client's response
validation, gemini-client.ts line 36. -/
def geminiTaskTypes : List String :=
  ["create", "modify", "test", "deploy", "analyze", "design", "document",
   "research", "review", "other"]

/-- Migration 001: `CHECK (type IN ('create','modify','test','deploy','other'))`
on `prp_tasks`. -/
def migration001Types : List String :=
  ["create", "modify", "test", "deploy", "other"]

/-- Migration 002 drops the migration-001 constraint and re-adds
`prp_tasks_type_check` over the expanded type list. -/
def migration002Types : List String :=
  ["create", "modify", "test", "deploy", "analyze", "design", "document",
   "research", "review", "other"]

/-- The effective `prp_tasks.type` check constraint after the migrations run
in order (002 replaces 001's constraint). -/
def prpTasksTypeCheck (t : String) : Bool :=
  migration002Types.contains t

/- ### Retry loop — gemini-client.ts makeRequest (lines 63-149); the youtube
and notion clients (youtube-client.ts lines 79-124, notion-client.ts lines
51-97) share the same structure with maxRetries = 3. -/

/-- One HTTP response as the retry loop classifies it: status 429, a
successful body, any other non-ok status, or a thrown transport error. -/
inductive HttpResp where
  | ok (body : String)
  | rateLimited
  | httpError (status : Nat) (body : String)
  | transportError (msg : String)

/-- Outcome of the request loop, paired below with the number of fetch
attempts actually performed. -/
inductive RequestOutcome where
  | success (body : String)
  | rateLimitError
  | apiError (status : Nat)
  | failedAfterRetries (msg : String)
deriving DecidableEq

/-- gemini-client.ts lines 66-148 (`for (attempt = 0; attempt < maxRetries;
attempt++)`): on 429, delay and continue while `attempt < maxRetries - 1`,
else throw the typed rate-limit error; on any other non-ok status throw the
typed API error at once; on a thrown transport error retry until the last
attempt. `resp n` is the response to the n-th fetch (0-based); the second
component counts fetches performed. -/
def makeRequestFrom (resp : Nat → HttpResp) (maxRetries : Nat) :
    Nat → Nat → RequestOutcome × Nat
  | _, 0 => (.failedAfterRetries "loop exhausted", 0)
  | attempt, remaining + 1 =>
    match resp attempt with
    | .ok body => (.success body, attempt + 1)
    | .rateLimited =>
      if attempt < maxRetries - 1 then
        makeRequestFrom resp maxRetries (attempt + 1) remaining
      else (.rateLimitError, attempt + 1)
    | .httpError status _ => (.apiError status, attempt + 1)
    | .transportError msg =>
      if attempt = maxRetries - 1 then (.failedAfterRetries msg, attempt + 1)
      else makeRequestFrom resp maxRetries (attempt + 1) remaining

/-- The client's `maxRetries = 3` (gemini-client.ts line 44, youtube-client.ts
line 63, notion-client.ts line 26). -/
def clientMaxRetries : Nat := 3

/-- `makeRequest` with the clients' configured bound. -/
def makeRequest (resp : Nat → HttpResp) : RequestOutcome × Nat :=
  makeRequestFrom resp clientMaxRetries 0 clientMaxRetries

/-- gemini-client.ts lines 203-213: strip optional surrounding markdown code
fences from the model's text before JSON parsing. -/
def cleanResponse (response : String) : String :=
  let r := response.trim
  let r := if r.startsWith "```json" then r.drop 7 else r
  let r := if r.startsWith "```" then r.drop 3 else r
  let r := if r.endsWith "```" then r.dropRight 3 else r
  r.trim

/-- How `JSON.parse` plus the zod `PRPResponseSchema.parse` treat the cleaned
text: a JSON syntax error, a shape (zod) error, or a valid document. The
decoder itself is an oracle parameter; the pipeline only branches on its
verdict (gemini-client.ts lines 216-217, 240-248). -/
inductive DecodeVerdict where
  | valid
  | shapeError (msg : String)
  | syntaxError (msg : String)

/-- Outcome of `parsePRPContent` at the error-taxonomy level:
`invalidJson` is the `SyntaxError` rethrow (line 244-246, the spec's
InvalidResponseFormat), `invalidStructure` the `ZodError` rethrow (lines
241-243), `upstream` any error propagated out of `makeRequest`. -/
inductive ExtractionOutcome where
  | okDoc
  | invalidStructure (msg : String)
  | invalidJson (msg : String)
  | upstream (e : RequestOutcome)

/-- gemini-client.ts parsePRPContent (lines 196-249): one `makeRequest`, then
clean + decode the returned text; decode failures are rethrown immediately —
they never re-enter the retry loop. Returns the outcome and the total number
of HTTP attempts performed. -/
def parsePRPContent (resp : Nat → HttpResp) (decode : String → DecodeVerdict) :
    ExtractionOutcome × Nat :=
  match makeRequest resp with
  | (.success text, n) =>
    match decode (cleanResponse text) with
    | .valid => (.okDoc, n)
    | .shapeError msg => (.invalidStructure msg, n)
    | .syntaxError msg => (.invalidJson msg, n)
  | (e, n) => (.upstream e, n)

/- ### Transcript fallback — youtube-client.ts getVideoTranscript (lines 149-180) -/

/-- Video metadata as returned by getVideoMetadata (VideoMetadataSchema,
youtube-client.ts lines 4-11). -/
structure VideoMetadata where
  id : String
  title : String
  description : String
  channelTitle : String
  publishedAt : String
  duration : String

/-- youtube-client.ts lines 149-180. Oracles: `captionsResp` is the result of
the captions-list request (the list of caption-track languages; the selected
track is never used in the returned value), `metadataResp` the result of
`getVideoMetadata` for the same id. The try body throws "No captions
available" on an empty list and otherwise returns the fallback-labelled
description; the catch handler fetches metadata again and returns the
other labelled description — but if that metadata fetch itself throws, the
error propagates out of getVideoTranscript. -/
def getVideoTranscript (captionsResp : Except String (List String))
    (metadataResp : Except String VideoMetadata) : Except String String :=
  let tryBody : Except String String := do
    let items ← captionsResp
    if items.isEmpty then
      throw "No captions available"
    else
      let md ← metadataResp
      pure ("[Transcript not available via API. Using video description as fallback]\n\n"
        ++ md.description)
  match tryBody with
  | .ok s => .ok s
  | .error _ => do
    let md ← metadataResp
    pure ("[Transcript extraction failed. Using video description]\n\n" ++ md.description)

/- ### Task rows and updateTaskStatus — prp-tools.ts lines 304-361,
migration 001 prp_tasks columns -/

/-- A `prp_tasks` row, restricted to the columns the claims are about.
Timestamps are abstract instants (Nat). -/
structure TaskRow where
  orderNum : Nat
  title : String
  taskType : String
  status : String
  completedAt : Option Nat
  completedBy : Option String
  updatedAt : Nat
deriving DecidableEq, Repr

/-- The zod status enum of updateTaskStatus (prp-tools.ts line 311) and the
migration-001 status check constraint. -/
def taskStatuses : List String := ["pending", "in_progress", "completed", "blocked"]

/-- A freshly inserted task row: both insert paths (parseYoutubePRP and
extractTasks) insert with `status: 'pending'` and leave completed_at and
completed_by at their NULL defaults. -/
def insertedTaskRow (orderNum : Nat) (title taskType : String) (now : Nat) : TaskRow :=
  { orderNum := orderNum, title := title, taskType := taskType,
    status := "pending", completedAt := none, completedBy := none, updatedAt := now }

/-- prp-tools.ts lines 316-324: `UPDATE prp_tasks SET status, updated_at =
NOW()` and, only when the new status is 'completed', also `completed_at =
NOW(), completed_by = <login>`; no branch ever clears the two completion
columns. -/
def updateTaskStatusRow (newStatus login : String) (now : Nat) (t : TaskRow) : TaskRow :=
  if newStatus = "completed" then
    { t with status := newStatus, updatedAt := now,
             completedAt := some now, completedBy := some login }
  else
    { t with status := newStatus, updatedAt := now }

/-- Task rows reachable through the repository's own write paths: an insert
(always pending, completion columns NULL) followed by any sequence of
updateTaskStatus calls with statuses admitted by the zod enum. -/
inductive ReachableTask : TaskRow → Prop
  | inserted (orderNum : Nat) (title taskType : String) (now : Nat) :
      ReachableTask (insertedTaskRow orderNum title taskType now)
  | updated (t : TaskRow) (newStatus login : String) (now : Nat) :
      ReachableTask t → newStatus ∈ taskStatuses →
      ReachableTask (updateTaskStatusRow newStatus login now t)

/- ### Task order assignment — parseYoutubePRP task insert and the
extractTasks tool (prp-tools.ts lines 254-272, gemini-client.ts lines
296-308) -/

/-- The per-PRP state the order computation reads and writes:
`contentTaskCount` is the length of the `tasks` array inside the stored
`parsed_content` JSONB (written once by the parse insert and never updated
by extractTasks), `taskOrders` the `order_num` values of the `prp_tasks`
rows in insertion order. -/
structure PRPTaskState where
  contentTaskCount : Nat
  taskOrders : List Nat
deriving Repr, DecidableEq

/-- parseYoutubePRP's insert: the PRP row stores the parsed content with its
n tasks, and the task rows get `order_num: index + 1` for index 0..n-1. -/
def parseInsertTasks (n : Nat) : PRPTaskState :=
  { contentTaskCount := n, taskOrders := (List.range n).map (· + 1) }

/-- One extractTasks tool call appending m tasks: both gemini-client.ts line
301 and prp-tools.ts line 257 compute the new order as
`(prpContent.tasks?.length || 0) + index + 1`, reading the stored content's
task count; the insert at prp-tools.ts lines 266-269 writes only `prp_tasks`
rows — `parsed_content` (and with it `contentTaskCount`) is left unchanged. -/
def extractTasksAppend (m : Nat) (s : PRPTaskState) : PRPTaskState :=
  { s with taskOrders := s.taskOrders ++ (List.range m).map (s.contentTaskCount + · + 1) }

/- ### syncToNotion branch logic — the notion tool handler, lines 62-120 -/

/-- Which external operation the syncToNotion handler performs after its
lookup phase. `alreadySynced` is the error envelope "PRP already synced to
Notion" carrying the stored page id. -/
inductive SyncAction where
  | updatePage (pageId : String)
  | createPage
  | alreadySynced (pageId : String)
deriving DecidableEq, Repr

/-- True exactly on the already-synced notice. -/
def SyncAction.isAlreadySynced : SyncAction → Bool
  | .alreadySynced _ => true
  | _ => false

/-- Notion tool handler lines 62-120: `existingPageId` is populated by
`findPageByPRPId` only when `update_existing || !notionPageId`; then the
update branch requires `existingPageId && update_existing`, the create
branch `!notionPageId || !existingPageId`, and the remaining case returns
the already-synced envelope. `lookupResult` is what the Notion query would
return were it performed. -/
def syncToNotionAction (storedPageId : Option String) (updateExisting : Bool)
    (lookupResult : Option String) : SyncAction :=
  let existingPageId : Option String :=
    if updateExisting || storedPageId.isNone then lookupResult else none
  if existingPageId.isSome && updateExisting then
    .updatePage (existingPageId.getD "")
  else if storedPageId.isNone || existingPageId.isNone then
    .createPage
  else
    .alreadySynced (storedPageId.getD "")

/- ### parseYoutubePRP auto-sync phase — youtube tool handler lines 362-429 -/

/-- The Notion sync columns of a `parsed_prps` row (migration 001: status
defaults to 'not_synced', the other columns to NULL). -/
structure PRPSyncColumns where
  notionPageId : Option String
  notionSyncStatus : String
  notionSyncError : Option String
  notionSyncedAt : Option Nat
deriving DecidableEq, Repr

/-- Sync columns of a freshly inserted `parsed_prps` row. -/
def insertedSyncColumns : PRPSyncColumns :=
  { notionPageId := none, notionSyncStatus := "not_synced",
    notionSyncError := none, notionSyncedAt := none }

/-- What parseYoutubePRP returns to the caller (ParseYoutubePRPResponse
fields relevant here), wrapped in the uniform envelope: `isSuccess` tells
whether `createSuccessResponse` (true) or `createErrorResponse` (false)
produced it. -/
structure ParseResponseShape where
  isSuccess : Bool
  syncStatus : String
  notionPageId : Option String
deriving DecidableEq, Repr

/-- Youtube tool handler lines 362-429: after the PRP and its tasks are
inserted, if the caller requested auto-sync with a database id, the handler
calls `createDatabasePage` inline. On success it updates the row to
'synced' (page id and synced_at set; this path does not touch
notion_sync_error) and answers with sync_status 'synced'; on failure it
records 'failed' with the error message and still answers through
`createSuccessResponse`, with sync_status 'failed'. Without auto-sync the
columns are untouched and sync_status is 'not_synced'. `notionCreate` is
the outcome of the createDatabasePage call, `now` the NOW() instant of the
status update. -/
def parseAutoSyncPhase (autoSync : Bool) (databaseId : Option String)
    (notionCreate : Except String String) (now : Nat) (db : PRPSyncColumns) :
    ParseResponseShape × PRPSyncColumns :=
  if autoSync && databaseId.isSome then
    match notionCreate with
    | .ok pageId =>
      ({ isSuccess := true, syncStatus := "synced", notionPageId := some pageId },
       { db with notionPageId := some pageId, notionSyncStatus := "synced",
                 notionSyncedAt := some now })
    | .error e =>
      ({ isSuccess := true, syncStatus := "failed", notionPageId := none },
       { db with notionSyncStatus := "failed", notionSyncError := some e })
  else
    ({ isSuccess := true, syncStatus := "not_synced", notionPageId := none }, db)

/- ### Privilege gating and tool registration — prp-tools.ts lines 21,
211-224, 304-312; notion tool handler lines 14-15, 29-39; register-tools -/

/-- prp-tools.ts line 21 and the notion tool module line 15:
`ALLOWED_USERNAMES = new Set(['coleam00', 'vedantparmar12'])`. -/
def ALLOWED_USERNAMES : List String := ["coleam00", "vedantparmar12"]

/-- Externally observable side effects of a tool handler body. -/
inductive Effect where
  | dbRead
  | dbWrite
  | geminiCall
  | notionCall
  | youtubeCall
deriving DecidableEq, Repr

/-- What an invocation yields across the tool boundary: one of the repo's
two envelopes, or the shell's failure for a tool that was never
registered. -/
inductive ToolResponse where
  | successEnv (message : String)
  | errorEnv (error : String)
  | toolNotFound
deriving DecidableEq, Repr

/-- prp-tools.ts lines 211-224: the extractTasks handler checks the
allow-list before any other statement; a non-member gets the
"Insufficient permissions to extract tasks" error envelope and the body
(database fetch, Gemini call, task insert) never runs. `body` stands for
that remainder of the handler together with the effects it would perform. -/
def extractTasksInvoke (login : String) (body : ToolResponse × List Effect) :
    ToolResponse × List Effect :=
  if ALLOWED_USERNAMES.contains login then body
  else (.errorEnv "Insufficient permissions to extract tasks", [])

/-- Notion tool handler lines 29-39: same gate at the top of syncToNotion,
with the "Insufficient permissions for Notion sync" envelope. -/
def syncToNotionInvoke (login : String) (body : ToolResponse × List Effect) :
    ToolResponse × List Effect :=
  if ALLOWED_USERNAMES.contains login then body
  else (.errorEnv "Insufficient permissions for Notion sync", [])

/-- The tool names registered for a user, in registration order
(registerAllTools: youtube, notion, then PRP tools): prp-tools.ts line 305
wraps the whole updateTaskStatus registration in
`if (ALLOWED_USERNAMES.has(props.login))`, so for a non-member the tool is
never registered; every other tool is registered unconditionally. -/
def registeredTools (login : String) : List String :=
  ["parseYoutubePRP", "syncToNotion", "checkNotionSyncStatus",
   "listParsedPRPs", "getPRPDetails", "extractTasks"] ++
  (if ALLOWED_USERNAMES.contains login then ["updateTaskStatus"] else [])

/-- Modelled from the spec: the request-routing/tool-registration shell
(out of scope in §1, "thin request-routing/tool-registration shell") routes
an invocation to a handler only if that tool name was registered for the
current user; a name that was never registered cannot reach any handler of
this repository, so no repository code runs and no effect is performed. -/
def invokeRegistered (login tool : String) (handler : ToolResponse × List Effect) :
    ToolResponse × List Effect :=
  if (registeredTools login).contains tool then handler else (.toolNotFound, [])

/-- An updateTaskStatus invocation as routed by the shell: the handler body
itself (prp-tools.ts lines 313-359) contains no allow-list check. -/
def updateTaskStatusInvoke (login : String) (body : ToolResponse × List Effect) :
    ToolResponse × List Effect :=
  invokeRegistered login "updateTaskStatus" body

/- ### Remaining helper definitions -/

/-- The backoff base term `this.baseDelay * Math.pow(2, attempt)` of the
shared delay helper (gemini-client.ts line 58, youtube-client.ts line 74,
notion-client.ts line 46), without the random jitter summand. -/
def backoffBaseDelayMs (attempt : Nat) : Nat := 1000 * 2 ^ attempt

/-- True exactly on the repository's error envelope. -/
def ToolResponse.isErrorEnv : ToolResponse → Bool
  | .errorEnv _ => true
  | _ => false

/- ### Theorems -/

/-- Claim C1 (code bug): for a PRP whose row already stores a Notion page id,
calling syncToNotion with update_existing=false does NOT return the
already-synced notice — the page lookup is skipped, `existingPageId` stays
null, and the `!notionPageId || !existingPageId` guard routes the call to
`createDatabasePage`, creating a second external page. The already-synced
branch is unreachable for every input. -/
theorem c1_already_synced_branch_unreachable :
    (∀ lookupResult, syncToNotionAction (some "page-abc123") false lookupResult = .createPage) ∧
    (∀ storedPageId updateExisting lookupResult,
      (syncToNotionAction storedPageId updateExisting lookupResult).isAlreadySynced = false) := by
  constructor
  · intro l
    simp [syncToNotionAction]
  · intro s u l
    rcases s with _ | s <;> rcases u <;> rcases l with _ | l <;>
      simp [syncToNotionAction, SyncAction.isAlreadySynced]

/-- Claim C2 (counterexample): after parseYoutubePRP inserts 1 task and two
extractTasks calls each append 1 task, the persisted order values are
[1, 2, 2] — the second call restarts from the stored content's task count,
so the order values are duplicated, refuting the max-persisted-order
computation and the no-duplicates invariant over arbitrary sequences. -/
theorem c2_second_extract_duplicates_order :
    (extractTasksAppend 1 (extractTasksAppend 1 (parseInsertTasks 1))).taskOrders = [1, 2, 2] ∧
    ¬ (extractTasksAppend 1 (extractTasksAppend 1 (parseInsertTasks 1))).taskOrders.Nodup ∧
    (extractTasksAppend 1 (parseInsertTasks 1)).taskOrders.foldr max 0 + 1 = 3 ∧
    (extractTasksAppend 1 (extractTasksAppend 1 (parseInsertTasks 1))).taskOrders.getLast?
      = some 2 := by
  refine ⟨by decide, by decide, by decide, by decide⟩

/-- Claim C2 (amended): one extractTasks call assigns orders from the stored
content's task count, which coincides with the persisted maximum only on
the first call after parse: after parseYoutubePRP inserts n tasks and a
single extractTasks call appends m, the persisted order values are exactly
1..n+m with no gaps or duplicates. -/
theorem c2_orders_after_parse_and_one_extract :
    ∀ n m : Nat,
      (extractTasksAppend m (parseInsertTasks n)).taskOrders = List.range' 1 (n + m) ∧
      ((extractTasksAppend m (parseInsertTasks n)).taskOrders).Nodup := by
  intro n m
  have h : (extractTasksAppend m (parseInsertTasks n)).taskOrders = List.range' 1 (n + m) := by
    simp only [extractTasksAppend, parseInsertTasks]
    rw [List.range'_eq_map_range, List.range_add, List.map_append, List.map_map]
    congr 1
    · apply List.map_congr_left
      intro a _
      omega
    · apply List.map_congr_left
      intro a _
      simp [Function.comp]
      omega
  refine ⟨h, ?_⟩
  rw [h]
  simp [List.nodup_range']

/-- Claim C3 (counterexample): with every fetch answered by a rate-limit
response, the loop performs 3 attempts and surfaces the typed rate-limit
error — that is 2 retries after the first attempt, not 3 retries
(equivalently, not 4 attempts). -/
theorem c3_two_retries_not_three :
    makeRequest (fun _ => .rateLimited) = (.rateLimitError, 3) ∧
    (makeRequest (fun _ => .rateLimited)).2 - 1 ≠ 3 ∧
    (makeRequest (fun _ => .rateLimited)).2 ≠ 4 := by
  refine ⟨by decide, by decide, by decide⟩

/-- Claim C3 (amended): on persistent rate-limit responses every client's
request loop performs exactly 3 attempts total (2 retries) before surfacing
the typed rate-limit error, with the backoff base delay doubling per
attempt; a malformed-JSON body from the extraction endpoint is never
retried: parsePRPContent performs exactly one HTTP attempt and fails
immediately with the invalid-JSON error. -/
theorem c3_retry_policy :
    (∀ resp : Nat → HttpResp, (∀ n, n < clientMaxRetries → resp n = .rateLimited) →
      makeRequest resp = (.rateLimitError, 3)) ∧
    (∀ (resp : Nat → HttpResp) (decode : String → DecodeVerdict) (body msg : String),
      resp 0 = .ok body → decode (cleanResponse body) = .syntaxError msg →
      parsePRPContent resp decode = (.invalidJson msg, 1)) ∧
    (∀ attempt : Nat, backoffBaseDelayMs (attempt + 1) = 2 * backoffBaseDelayMs attempt) := by
  refine ⟨?_, ?_, ?_⟩
  · intro resp h
    have h0 := h 0 (by decide)
    have h1 := h 1 (by decide)
    have h2 := h 2 (by decide)
    simp [makeRequest, makeRequestFrom, clientMaxRetries, h0, h1, h2]
  · intro resp decode body msg h1 h2
    simp [parsePRPContent, makeRequest, makeRequestFrom, clientMaxRetries, h1, h2]
  · intro attempt
    simp [backoffBaseDelayMs, Nat.pow_succ]
    ring

/-- Witness for c3_retry_policy at concrete oracles: an all-rate-limited
upstream, and a first response whose body the decoder rejects as a JSON
syntax error. -/
theorem c3_retry_policy_witness :
    makeRequest (fun _ => .rateLimited) = (.rateLimitError, 3) ∧
    parsePRPContent (fun _ => .ok "not json")
      (fun _ => .syntaxError "Unexpected token") = (.invalidJson "Unexpected token", 1) :=
  ⟨c3_retry_policy.1 (fun _ => .rateLimited) (fun _ _ => rfl),
   c3_retry_policy.2.1 (fun _ => .ok "not json") (fun _ => .syntaxError "Unexpected token")
     "not json" "Unexpected token" rfl rfl⟩

/-- Claim C4 (counterexample): for the non-allow-listed username "mallory",
the updateTaskStatus tool is never registered (prp-tools.ts line 305 wraps
its registration in the allow-list check), so its invocation is answered by
the routing shell with tool-not-found — not by a Forbidden-shaped error
envelope of this repository. -/
theorem c4_update_task_status_not_registered :
    (registeredTools "mallory").contains "updateTaskStatus" = false ∧
    updateTaskStatusInvoke "mallory" (.successEnv "updated", [Effect.dbWrite])
      = (.toolNotFound, []) ∧
    (updateTaskStatusInvoke "mallory" (.successEnv "updated", [Effect.dbWrite])).1.isErrorEnv
      = false := by
  refine ⟨by decide, by decide, by decide⟩

/-- Claim C4 (amended): for every username outside the allow-list,
extractTasks and syncToNotion answer with their Forbidden error envelopes
and perform no effect (no database access, no external call), while
updateTaskStatus is not registered at all — its invocation yields the
shell's tool-not-found answer, likewise with no effect. -/
theorem c4_privilege_gate :
    ∀ (login : String) (body : ToolResponse × List Effect),
      login ∉ ALLOWED_USERNAMES →
      extractTasksInvoke login body
        = (.errorEnv "Insufficient permissions to extract tasks", []) ∧
      syncToNotionInvoke login body
        = (.errorEnv "Insufficient permissions for Notion sync", []) ∧
      updateTaskStatusInvoke login body = (.toolNotFound, []) := by
  intro login body h
  refine ⟨?_, ?_, ?_⟩
  · simp [extractTasksInvoke, h]
  · simp [syncToNotionInvoke, h]
  · simp [updateTaskStatusInvoke, invokeRegistered, registeredTools, h]

/-- Witness for c4_privilege_gate at the concrete username "mallory" and a
body that would write to the database if it ran. -/
theorem c4_privilege_gate_witness :
    extractTasksInvoke "mallory" (.successEnv "done", [Effect.dbWrite])
      = (.errorEnv "Insufficient permissions to extract tasks", []) ∧
    syncToNotionInvoke "mallory" (.successEnv "done", [Effect.dbWrite])
      = (.errorEnv "Insufficient permissions for Notion sync", []) ∧
    updateTaskStatusInvoke "mallory" (.successEnv "done", [Effect.dbWrite])
      = (.toolNotFound, []) :=
  c4_privilege_gate "mallory" (.successEnv "done", [Effect.dbWrite]) (by decide)

/-- Claim C5: when parse succeeded, auto-sync was requested with a target
database id, and the inline Notion create fails, the failure is recorded in
the PRP's sync columns (status 'failed' with the error message, page id and
synced-at untouched) while the parse still answers through the success
envelope with sync_status 'failed'. -/
theorem c5_sync_failure_recorded_parse_succeeds :
    ∀ (databaseId e : String) (now : Nat) (db : PRPSyncColumns),
      (parseAutoSyncPhase true (some databaseId) (.error e) now db).1.isSuccess = true ∧
      (parseAutoSyncPhase true (some databaseId) (.error e) now db).1.syncStatus = "failed" ∧
      (parseAutoSyncPhase true (some databaseId) (.error e) now db).2.notionSyncStatus
        = "failed" ∧
      (parseAutoSyncPhase true (some databaseId) (.error e) now db).2.notionSyncError
        = some e ∧
      (parseAutoSyncPhase true (some databaseId) (.error e) now db).2.notionPageId
        = db.notionPageId ∧
      (parseAutoSyncPhase true (some databaseId) (.error e) now db).2.notionSyncedAt
        = db.notionSyncedAt := by
  intro databaseId e now db
  exact ⟨rfl, rfl, rfl, rfl, rfl, rfl⟩

/-- Claim C6 (counterexample): a task completed by an allow-listed user and
then set to 'blocked' keeps its completion columns (they are never
cleared), so status = completed is not equivalent to both completion
columns being non-null. -/
theorem c6_completed_fields_survive_unrelated_status :
    ¬ ((updateTaskStatusRow "blocked" "coleam00" 9
        (updateTaskStatusRow "completed" "coleam00" 5
          (insertedTaskRow 1 "Implement extraction" "create" 0))).status = "completed" ↔
      ((updateTaskStatusRow "blocked" "coleam00" 9
        (updateTaskStatusRow "completed" "coleam00" 5
          (insertedTaskRow 1 "Implement extraction" "create" 0))).completedAt ≠ none ∧
       (updateTaskStatusRow "blocked" "coleam00" 9
        (updateTaskStatusRow "completed" "coleam00" 5
          (insertedTaskRow 1 "Implement extraction" "create" 0))).completedBy ≠ none)) := by
  decide

/-- Claim C6 (amended): for every task reachable through the repository's
write paths, status = completed implies both completion columns are
non-null; an update to any non-completed status changes only the status
(the completion columns keep their prior value, never auto-cleared); an
update to completed sets both columns. The converse implication (non-null
columns force status = completed) does not hold. -/
theorem c6_completion_coupling :
    (∀ t : TaskRow, ReachableTask t → t.status = "completed" →
        t.completedAt ≠ none ∧ t.completedBy ≠ none) ∧
    (∀ (t : TaskRow) (newStatus login : String) (now : Nat), newStatus ≠ "completed" →
        (updateTaskStatusRow newStatus login now t).completedAt = t.completedAt ∧
        (updateTaskStatusRow newStatus login now t).completedBy = t.completedBy ∧
        (updateTaskStatusRow newStatus login now t).status = newStatus) ∧
    (∀ (t : TaskRow) (login : String) (now : Nat),
        (updateTaskStatusRow "completed" login now t).completedAt = some now ∧
        (updateTaskStatusRow "completed" login now t).completedBy = some login) := by
  refine ⟨?_, ?_, ?_⟩
  · intro t ht
    induction ht with
    | inserted o title ty now =>
      intro h
      simp [insertedTaskRow] at h
    | updated t st login now _ _ ih =>
      intro h
      by_cases hc : st = "completed"
      · subst hc
        simp [updateTaskStatusRow]
      · simp [updateTaskStatusRow, hc] at h
  · intro t st login now h
    simp [updateTaskStatusRow, h]
  · intro t login now
    simp [updateTaskStatusRow]

/-- Witness for c6_completion_coupling: a freshly inserted task updated to
'completed' by an allow-listed user has both completion columns set. -/
theorem c6_completion_coupling_witness :
    (updateTaskStatusRow "completed" "coleam00" 5
      (insertedTaskRow 1 "Implement extraction" "create" 0)).completedAt ≠ none ∧
    (updateTaskStatusRow "completed" "coleam00" 5
      (insertedTaskRow 1 "Implement extraction" "create" 0)).completedBy ≠ none :=
  c6_completion_coupling.1 _
    (ReachableTask.updated _ "completed" "coleam00" 5
      (ReachableTask.inserted 1 "Implement extraction" "create" 0) (by decide))
    (by rfl)

/-- Claim C7: every member of the extraction client's ten-value task-type
enum is admitted by the effective prp_tasks type check constraint
(migration 002 replaced the five-value constraint of migration 001 with
exactly this ten-value set), so tasks of every such type can be persisted
by the parse and extract-more insert paths. -/
theorem c7_type_constraint_admits_all_gemini_types :
    geminiTaskTypes.all prpTasksTypeCheck = true ∧
    migration002Types = geminiTaskTypes ∧
    migration001Types.all prpTasksTypeCheck = true := by
  refine ⟨by decide, by decide, by decide⟩

/-- Claim C8 (counterexample): when the captions request fails and the
metadata fetch in the fallback path also fails (e.g. the video does not
exist), getVideoTranscript propagates the metadata error instead of
returning a labelled description — a hard failure surfaces. -/
theorem c8_transcript_hard_failure_when_metadata_fails :
    getVideoTranscript (.error "YouTube API rate limit exceeded")
      (.error "Video not found: dQw4w9WgXcQ") = .error "Video not found: dQw4w9WgXcQ" := by
  rfl

/-- Claim C8 (amended): whenever the video's metadata is retrievable,
transcript retrieval never surfaces a failure: whatever the captions
request yields, it returns the video's description prefixed with one of
the two transcript-unavailable labels; a hard failure is possible only
when the metadata fetch itself fails. -/
theorem c8_transcript_always_falls_back :
    ∀ (captionsResp : Except String (List String)) (md : VideoMetadata),
      getVideoTranscript captionsResp (.ok md) =
        .ok ("[Transcript not available via API. Using video description as fallback]\n\n"
          ++ md.description) ∨
      getVideoTranscript captionsResp (.ok md) =
        .ok ("[Transcript extraction failed. Using video description]\n\n"
          ++ md.description) := by
  intro captionsResp md
  rcases captionsResp with e | items
  · right; rfl
  · rcases items with _ | ⟨c, cs⟩
    · right; rfl
    · left; rfl

/-- Claim C9: duration rendering maps "PT0S" to "0s" and "PT1H2M3S" to
"1h 2m 3s", and the parts list built by the renderer is exactly the list of
nonzero components — every component with value 0 is omitted. -/
theorem c9_duration_rendering :
    parseDuration "PT0S" = "0s" ∧ parseDuration "PT1H2M3S" = "1h 2m 3s" ∧
    ∀ h m s : Nat, durationParts h m s = specNonzeroComponents h m s := by
  refine ⟨by decide, by decide, ?_⟩
  intro h m s
  rcases h with _ | h <;> rcases m with _ | m <;> rcases s with _ | s <;>
    simp [durationParts, specNonzeroComponents]

/-- Claim C10: the video-id patterns are unanchored, so a URL whose host is
not a video-host domain but which contains "youtube.com/watch?v=" plus 11
id characters as a substring yields that 11-character segment instead of
the invalid-URL failure; characters after the 11th are ignored; an input
with only 10 id characters after the marker still fails. -/
theorem c10_substring_match_ignores_host :
    extractVideoId "https://evil.example/youtube.com/watch?v=abcdefghijk"
      = some "abcdefghijk" ∧
    extractVideoId "https://evil.example/youtube.com/watch?v=abcdefghijkEXTRA999"
      = some "abcdefghijk" ∧
    extractVideoId "https://evil.example/youtube.com/watch?v=abcdefghij" = none ∧
    extractVideoId "https://www.youtube.com/watch?v=dQw4w9WgXcQ" = some "dQw4w9WgXcQ" := by
  refine ⟨by decide, by decide, by decide, by decide⟩
